import Mathlib

/-!
Shallow embedding of the face-registry enrollment and profile-sync code
(liveness-check component and dashboard component) together with proofs of
the specified properties.  The definitions mirror the TypeScript source:
`startRecording` / `handleRecordingStop` of the LivenessCheck component,
and `fetchUserData` / `handleOnline` / `handleLivenessSuccess` of the
Dashboard component.  External collaborators (the liveness verifier, the
feature extractor, blob storage, the profile store) are passed in as
explicit outcome parameters, matching the await points of the source.
-/

namespace FaceRegistry

/-! ## Liveness challenge (LivenessCheck component) -/

/-- The closed action alphabet of the liveness flow
(`z.enum(['blink', 'head_left', 'head_right'])`). -/
inductive LivenessAction where
  | blink
  | head_left
  | head_right
deriving DecidableEq, Repr

/-- `ACTIONS_TO_PERFORM: LivenessAction[] = ['blink', 'head_right']`. -/
def ACTIONS_TO_PERFORM : List LivenessAction := [.blink, .head_right]

/-- `RECORDING_DURATION_MS = 5000`. -/
def RECORDING_DURATION_MS : ℕ := 5000

/-- Output of `performLivenessDetection`; the component reads
`result.performedActions` with optional chaining, hence the `Option`. -/
structure LivenessResult where
  isLive : Bool
  performedActions : Option (List LivenessAction)
deriving DecidableEq, Repr

/-- `result.performedActions?.includes(action)`: `none` (undefined) is falsy. -/
def actionConfirmed (performed : Option (List LivenessAction))
    (action : LivenessAction) : Bool :=
  match performed with
  | some l => l.contains action
  | none => false

/-- `ACTIONS_TO_PERFORM.every(action => result.performedActions?.includes(action))`,
parameterised by the required list. -/
def allActionsPerformed (required : List LivenessAction)
    (performed : Option (List LivenessAction)) : Bool :=
  required.all (fun action => actionConfirmed performed action)

/-- `ACTIONS_TO_PERFORM.filter(action => !result.performedActions?.includes(action))`. -/
def missingActions (required : List LivenessAction)
    (performed : Option (List LivenessAction)) : List LivenessAction :=
  required.filter (fun action => !(actionConfirmed performed action))

/-- The success gate `result.isLive && allActionsPerformed`. -/
def livenessDecision (required : List LivenessAction) (result : LivenessResult) : Bool :=
  result.isLive && allActionsPerformed required result.performedActions

/-- Terminal outcome of one run of `handleRecordingStop`. -/
inductive LivenessOutcome where
  | challengeOk
  | noRecordingData
  | livenessRejected (liveFlag : Bool) (missing : List LivenessAction)
  | verificationError
deriving DecidableEq, Repr

/-- Result of `handleRecordingStop`: the payload passed to the verifier
(`none` when the verifier was never invoked) and the terminal outcome. -/
structure StopResult where
  verifierPayload : Option (List ℕ)
  outcome : LivenessOutcome
deriving DecidableEq, Repr

/-- `handleRecordingStop`, parameterised by the required-action list that the
source fixes to `ACTIONS_TO_PERFORM`.  `recordedChunks` is the chunk list at
stop time (each chunk a byte list); assembling the `Blob` concatenates the
chunks; `verify` is the awaited `performLivenessDetection` call, which may
throw (`Except.error`). -/
def handleRecordingStopWith (required : List LivenessAction)
    (recordedChunks : List (List ℕ))
    (verify : List ℕ → Except Unit LivenessResult) : StopResult :=
  if recordedChunks.length = 0 then
    { verifierPayload := none, outcome := .noRecordingData }
  else
    let payload := recordedChunks.flatten
    match verify payload with
    | .error _ => { verifierPayload := some payload, outcome := .verificationError }
    | .ok result =>
      if result.isLive && allActionsPerformed required result.performedActions then
        { verifierPayload := some payload, outcome := .challengeOk }
      else
        { verifierPayload := some payload,
          outcome := .livenessRejected result.isLive
            (missingActions required result.performedActions) }

/-- `handleRecordingStop` as in the source, with the fixed action schedule. -/
def handleRecordingStop (recordedChunks : List (List ℕ))
    (verify : List ℕ → Except Unit LivenessResult) : StopResult :=
  handleRecordingStopWith ACTIONS_TO_PERFORM recordedChunks verify

/-- The progress-interval body:
`Math.min(100, (elapsedTime / RECORDING_DURATION_MS) * 100)`. -/
def progressAt (elapsedTime : ℕ) : ℚ :=
  min 100 ((elapsedTime : ℚ) / (RECORDING_DURATION_MS : ℚ) * 100)

/-! ## Dashboard component: data model -/

/-- The `UserData` interface of the dashboard. -/
structure UserData where
  uid : String
  fullName : String
  email : String
  employeeId : String
  department : String
  faceRegistered : Bool
  faceImageUrl : Option String
  facialFeatures : Option (List ℚ)
deriving DecidableEq, Repr

/-- The distinct user-facing messages the dashboard stores in `fetchError`. -/
inductive UiMessage where
  | offlineMessage
  | userDataNotFound
  | failedToFetchGeneric
  | permissionDeniedCheckRules
  | firestoreErrorContactAdmin
deriving DecidableEq, Repr

/-- Firestore error codes distinguished by `fetchUserData`'s catch block. -/
inductive FirestoreErrorCode where
  | unavailable
  | permissionDenied
  | invalidArgument
  | unknown (code : String)
deriving DecidableEq, Repr

/-- Result of the awaited `getDoc(userDocRef)`: a snapshot that exists
(with its `metadata.fromCache` flag), a snapshot that does not exist,
or a thrown `FirestoreError`. -/
inductive FetchResult where
  | found (data : UserData) (fromCache : Bool)
  | notFound
  | failure (code : FirestoreErrorCode)
deriving DecidableEq, Repr

/-- The dashboard's state hooks. -/
structure DashboardState where
  userData : Option UserData
  loading : Bool
  showWebcam : Bool
  capturedImage : Option String
  processing : Bool
  livenessCheckRequired : Bool
  isOffline : Bool
  fetchError : Option UiMessage
deriving DecidableEq, Repr

/-! ## Dashboard component: profile synchronization -/

/-- `fetchUserData`: one run of the fetch callback given the auth user, the
`navigator.onLine` value at entry, and the outcome of the `getDoc` await.
Mirrors the source order of `setState` calls; the final value of each state
hook after the run is recorded. -/
def fetchUserData (user : Option String) (online : Bool) (result : FetchResult)
    (st : DashboardState) : DashboardState :=
  match user with
  | none =>
      { st with loading := false, userData := none, fetchError := none }
  | some uid =>
    let st1 : DashboardState :=
      { st with loading := true, fetchError := none, isOffline := !online }
    let st2 : DashboardState :=
      if !online then { st1 with fetchError := some .offlineMessage, loading := false }
      else st1
    match result with
    | .found data fromCache =>
        { st2 with userData := some { data with uid := uid },
                   fetchError := none, isOffline := fromCache, loading := false }
    | .notFound =>
        { st2 with userData := none, fetchError := some .userDataNotFound,
                   loading := false }
    | .failure code =>
        let isCurrentlyOffline : Bool := code = .unavailable
        let uiError : UiMessage :=
          match code with
          | .unavailable => .offlineMessage
          | .permissionDenied => .permissionDeniedCheckRules
          | .invalidArgument => .firestoreErrorContactAdmin
          | .unknown _ => .failedToFetchGeneric
        { st2 with isOffline := isCurrentlyOffline,
                   fetchError := some uiError,
                   userData := if isCurrentlyOffline then st2.userData else none,
                   loading := false }

/-- `handleOnline`: the `online` listener.  Clears the offline flag, clears
`fetchError` only when it is the offline message, and triggers
`fetchUserData()` when `!userData || fetchError` (the closure values at
listener-registration time, i.e. the current state).  The second component
counts how many loads this handler starts. -/
def handleOnline (st : DashboardState) : DashboardState × ℕ :=
  let st1 : DashboardState :=
    { st with isOffline := false,
              fetchError := if st.fetchError = some .offlineMessage then none
                            else st.fetchError }
  if st.userData.isNone || st.fetchError.isSome then (st1, 1) else (st1, 0)

/-! ## Dashboard component: enrollment continuation (`handleLivenessSuccess`) -/

/-- Error codes distinguished by `handleLivenessSuccess`'s catch block. -/
inductive FirebaseErrorCode where
  | storageUnauthorized
  | firestorePermissionDenied
  | other (code : String)
deriving DecidableEq, Repr

/-- What the try block can throw: the manual
`throw new Error(t('failed_to_extract_features'))` on an empty/absent
feature vector, or a rethrown SDK error. -/
inductive EnrollError where
  | featuresEmpty
  | firebase (code : FirebaseErrorCode)
deriving DecidableEq, Repr

/-- The user-facing message chosen by the catch block. -/
inductive EnrollMessage where
  | couldNotDetectFace
  | storagePermissionError
  | genericWithCode (code : String)
deriving DecidableEq, Repr

/-- `errorMessage` selection in the catch block of `handleLivenessSuccess`. -/
def registrationErrorMessage : EnrollError → EnrollMessage
  | .featuresEmpty => .couldNotDetectFace
  | .firebase .storageUnauthorized => .storagePermissionError
  | .firebase .firestorePermissionDenied => .storagePermissionError
  | .firebase (.other code) => .genericWithCode code

/-- Outcomes of the awaited external calls inside `handleLivenessSuccess`:
`extractFacialFeatures`, `uploadString`, `getDownloadURL`, `updateDoc`.
The extractor may throw, or return an absent/any feature vector. -/
structure EnrollmentEnv where
  extractResult : Except FirebaseErrorCode (Option (List ℚ))
  uploadResult : Except FirebaseErrorCode Unit
  downloadUrlResult : Except FirebaseErrorCode String
  updateDocResult : Except FirebaseErrorCode Unit
deriving Repr

/-- Terminal outcome of one run of `handleLivenessSuccess`. -/
inductive EnrollOutcome where
  | notStarted
  | enrolled
  | failed (message : EnrollMessage)
deriving DecidableEq, Repr

/-- Result of one run of `handleLivenessSuccess`: the final dashboard state,
which of the three external side effects were invoked, and the outcome. -/
structure EnrollmentResult where
  state : DashboardState
  extractCalled : Bool
  uploadCalled : Bool
  updateDocCalled : Bool
  outcome : EnrollOutcome
deriving DecidableEq, Repr

/-- `handleLivenessSuccess`: guard
`if (!capturedImage || !user || !userData) return;`, then
extract → (reject empty vector) → upload → download URL → `updateDoc` with
`{faceRegistered: true, faceImageUrl, facialFeatures}` → optimistic local
merge `setUserData(prev => prev ? {...prev, ...updateData} : null)`.
Every failure path runs the catch block: `setCapturedImage(null)` and the
finally block `setProcessing(false)`. -/
def handleLivenessSuccess (user : Option String) (env : EnrollmentEnv)
    (st : DashboardState) : EnrollmentResult :=
  match st.capturedImage, user, st.userData with
  | some _, some _, some ud =>
    let st1 : DashboardState := { st with processing := true, livenessCheckRequired := false }
    let fail (calledUpload calledUpdate : Bool) (e : EnrollError) : EnrollmentResult :=
      { state := { st1 with capturedImage := none, processing := false },
        extractCalled := true, uploadCalled := calledUpload,
        updateDocCalled := calledUpdate,
        outcome := .failed (registrationErrorMessage e) }
    match env.extractResult with
    | .error code => fail false false (.firebase code)
    | .ok none => fail false false .featuresEmpty
    | .ok (some facialFeatures) =>
      if facialFeatures.isEmpty then fail false false .featuresEmpty
      else
        match env.uploadResult with
        | .error code => fail true false (.firebase code)
        | .ok _ =>
          match env.downloadUrlResult with
          | .error code => fail true false (.firebase code)
          | .ok imageUrl =>
            match env.updateDocResult with
            | .error code => fail true true (.firebase code)
            | .ok _ =>
                { state := { st1 with
                    userData := some { ud with faceRegistered := true,
                                               faceImageUrl := some imageUrl,
                                               facialFeatures := some facialFeatures },
                    capturedImage := none, processing := false },
                  extractCalled := true, uploadCalled := true, updateDocCalled := true,
                  outcome := .enrolled }
  | _, _, _ =>
      { state := st, extractCalled := false, uploadCalled := false,
        updateDocCalled := false, outcome := .notStarted }

/-! ## Shared fixtures for concrete evaluations -/

/-- A plain profile record as stored under `users/{uid}` before enrollment. -/
def sampleProfile : UserData :=
  { uid := "u1", fullName := "Ann Lee", email := "ann@sm.example",
    employeeId := "SM-01", department := "StepMedia",
    faceRegistered := false, faceImageUrl := none, facialFeatures := none }

/-- A dashboard state holding `sampleProfile` with a captured still image. -/
def sampleState : DashboardState :=
  { userData := some sampleProfile, loading := false, showWebcam := false,
    capturedImage := some "data:image/jpeg;base64,abc", processing := false,
    livenessCheckRequired := true, isOffline := false, fetchError := none }

/-- An environment in which every external call of the pipeline succeeds. -/
def sampleEnv : EnrollmentEnv :=
  { extractResult := .ok (some [1, 2]), uploadResult := .ok (),
    downloadUrlResult := .ok "https://blob.example/u1.jpg",
    updateDocResult := .ok () }

/-! ## Helper lemmas -/

lemma actionConfirmed_some_iff (l : List LivenessAction) (a : LivenessAction) :
    actionConfirmed (some l) a = true ↔ a ∈ l := by
  simp [actionConfirmed]

lemma allActionsPerformed_iff (required : List LivenessAction)
    (performed : Option (List LivenessAction)) :
    allActionsPerformed required performed = true ↔
      ∀ a ∈ required, actionConfirmed performed a = true := by
  simp [allActionsPerformed]

lemma livenessDecision_iff (required : List LivenessAction) (r : LivenessResult) :
    livenessDecision required r = true ↔
      (r.isLive = true ∧ ∀ a ∈ required, actionConfirmed r.performedActions a = true) := by
  simp [livenessDecision, allActionsPerformed]

/-! ## Claim theorems: liveness challenge -/

/-- Claim C1: the liveness challenge succeeds iff the verifier's liveness flag
is true and every required action is among the reported performed actions.
The check is order-independent and ignores extra performed actions; any
violation produces the `livenessRejected` outcome, not success. -/
theorem liveness_success_iff :
    (∀ (required : List LivenessAction) (r : LivenessResult),
        livenessDecision required r = true ↔
          (r.isLive = true ∧ ∀ a ∈ required, actionConfirmed r.performedActions a = true)) ∧
    (∀ (required l l' : List LivenessAction) (b : Bool), l.Perm l' →
        livenessDecision required ⟨b, some l⟩ = livenessDecision required ⟨b, some l'⟩) ∧
    (∀ (required l extra : List LivenessAction) (b : Bool),
        livenessDecision required ⟨b, some l⟩ = true →
        livenessDecision required ⟨b, some (l ++ extra)⟩ = true) ∧
    (∀ (recordedChunks : List (List ℕ)) (verify : List ℕ → Except Unit LivenessResult)
        (r : LivenessResult),
        recordedChunks.length ≠ 0 → verify recordedChunks.flatten = .ok r →
        ((handleRecordingStop recordedChunks verify).outcome = .challengeOk ↔
            livenessDecision ACTIONS_TO_PERFORM r = true) ∧
        (livenessDecision ACTIONS_TO_PERFORM r = false →
            (handleRecordingStop recordedChunks verify).outcome =
              .livenessRejected r.isLive
                (missingActions ACTIONS_TO_PERFORM r.performedActions))) := by
  refine ⟨livenessDecision_iff, ?_, ?_, ?_⟩
  · intro required l l' b h
    rw [Bool.eq_iff_iff, livenessDecision_iff, livenessDecision_iff]
    simp only [actionConfirmed_some_iff]
    constructor
    · rintro ⟨hb, hall⟩
      exact ⟨hb, fun a ha => h.mem_iff.mp (hall a ha)⟩
    · rintro ⟨hb, hall⟩
      exact ⟨hb, fun a ha => h.mem_iff.mpr (hall a ha)⟩
  · intro required l extra b h
    rw [livenessDecision_iff] at h ⊢
    simp only [actionConfirmed_some_iff] at h ⊢
    exact ⟨h.1, fun a ha => List.mem_append_left extra (h.2 a ha)⟩
  · intro recordedChunks verify r hlen hv
    have hred : handleRecordingStop recordedChunks verify =
        if livenessDecision ACTIONS_TO_PERFORM r = true then
          { verifierPayload := some recordedChunks.flatten, outcome := .challengeOk }
        else
          { verifierPayload := some recordedChunks.flatten,
            outcome := .livenessRejected r.isLive
              (missingActions ACTIONS_TO_PERFORM r.performedActions) } := by
      rw [handleRecordingStop, handleRecordingStopWith, if_neg hlen]
      simp [hv, livenessDecision]
    constructor
    · rw [hred]
      by_cases hdec : livenessDecision ACTIONS_TO_PERFORM r = true
      · simp [hdec]
      · simp [hdec]
    · intro hdec
      rw [hred, if_neg (by simp [hdec])]

/-- Witness for C1 at concrete inputs: order of performed actions does not
change the decision, extra actions are ignored, and a non-live result is
rejected with the exact missing-action list. -/
theorem liveness_success_iff_witness :
    livenessDecision ACTIONS_TO_PERFORM ⟨true, some [.blink, .head_right]⟩ =
      livenessDecision ACTIONS_TO_PERFORM ⟨true, some [.head_right, .blink]⟩ ∧
    livenessDecision ACTIONS_TO_PERFORM ⟨true, some ([.blink, .head_right] ++ [.head_left])⟩ = true ∧
    (handleRecordingStop [[1]] (fun _ => .ok ⟨false, some [.blink]⟩)).outcome =
      .livenessRejected false (missingActions ACTIONS_TO_PERFORM (some [.blink])) := by
  refine ⟨?_, ?_, ?_⟩
  · exact liveness_success_iff.2.1 ACTIONS_TO_PERFORM [.blink, .head_right]
      [.head_right, .blink] true (by decide)
  · exact liveness_success_iff.2.2.1 ACTIONS_TO_PERFORM [.blink, .head_right]
      [.head_left] true (by decide)
  · exact (liveness_success_iff.2.2.2 [[1]] (fun _ => .ok ⟨false, some [.blink]⟩)
      ⟨false, some [.blink]⟩ (by decide) rfl).2 (by decide)

/-- Claim C4: on a rejection the missing-action diagnostic is exactly
`requiredActions − performedActions`: membership in it is equivalent to
being required and not reported performed. -/
theorem missing_actions_exact :
    (∀ (required l : List LivenessAction) (a : LivenessAction),
        a ∈ missingActions required (some l) ↔ (a ∈ required ∧ a ∉ l)) ∧
    (∀ (required : List LivenessAction) (a : LivenessAction),
        a ∈ missingActions required none ↔ a ∈ required) := by
  constructor
  · intro required l a
    simp [missingActions, List.mem_filter, actionConfirmed]
  · intro required a
    simp [missingActions, List.mem_filter, actionConfirmed]

/-- Witness for C4: required {blink, head_right}, performed {blink} gives
missing = {head_right}. -/
theorem missing_actions_exact_witness :
    LivenessAction.head_right ∈ missingActions ACTIONS_TO_PERFORM (some [.blink]) ↔
      (LivenessAction.head_right ∈ ACTIONS_TO_PERFORM ∧
       LivenessAction.head_right ∉ [LivenessAction.blink]) :=
  missing_actions_exact.1 ACTIONS_TO_PERFORM [.blink] .head_right

/-- Claim C8: an empty chunk list at stop time yields `noRecordingData` and
the verifier is never invoked; a non-empty chunk list always reaches the
verifier with the assembled payload. -/
theorem no_recording_data_gate :
    (∀ verify : List ℕ → Except Unit LivenessResult,
        handleRecordingStop [] verify =
          { verifierPayload := none, outcome := .noRecordingData }) ∧
    (∀ (recordedChunks : List (List ℕ)) (verify : List ℕ → Except Unit LivenessResult),
        recordedChunks ≠ [] →
        (handleRecordingStop recordedChunks verify).verifierPayload =
          some recordedChunks.flatten) := by
  constructor
  · intro verify
    rfl
  · intro recordedChunks verify h
    have hlen : ¬ recordedChunks.length = 0 := by
      simpa [List.length_eq_zero] using h
    rw [handleRecordingStop, handleRecordingStopWith, if_neg hlen]
    rcases hv : verify recordedChunks.flatten with e | r
    · simp [hv]
    · by_cases hdec : (r.isLive && allActionsPerformed ACTIONS_TO_PERFORM r.performedActions) = true
      · simp [hv, hdec]
      · simp [hv, hdec]

/-- Witness for C8: one captured chunk reaches the verifier with its bytes. -/
theorem no_recording_data_gate_witness :
    (handleRecordingStop [[1, 2]] (fun _ => .error ())).verifierPayload =
      some ([[1, 2]] : List (List ℕ)).flatten :=
  no_recording_data_gate.2 [[1, 2]] (fun _ => .error ()) (by decide)

/-- Claim C9: the progress value is monotonically non-decreasing in elapsed
time, stays within [0, 100], and equals exactly 100 once the recording
duration has elapsed. -/
theorem progress_monotone_bounded :
    (∀ e1 e2 : ℕ, e1 ≤ e2 → progressAt e1 ≤ progressAt e2) ∧
    (∀ e : ℕ, 0 ≤ progressAt e ∧ progressAt e ≤ 100) ∧
    (∀ e : ℕ, RECORDING_DURATION_MS ≤ e → progressAt e = 100) := by
  refine ⟨?_, ?_, ?_⟩
  · intro e1 e2 h
    unfold progressAt
    apply min_le_min le_rfl
    have hc : (e1 : ℚ) ≤ (e2 : ℚ) := by exact_mod_cast h
    have hpos : (0 : ℚ) < (RECORDING_DURATION_MS : ℚ) := by
      norm_num [RECORDING_DURATION_MS]
    exact mul_le_mul_of_nonneg_right ((div_le_div_iff_of_pos_right hpos).mpr hc) (by norm_num)
  · intro e
    unfold progressAt
    constructor
    · apply le_min (by norm_num)
      positivity
    · exact min_le_left _ _
  · intro e h
    unfold progressAt
    apply min_eq_left
    have h5 : (RECORDING_DURATION_MS : ℚ) = 5000 := by norm_num [RECORDING_DURATION_MS]
    have hc : (5000 : ℚ) ≤ (e : ℚ) := by
      rw [← h5]; exact_mod_cast h
    rw [h5, div_mul_eq_mul_div, le_div_iff₀ (by norm_num)]
    linarith

/-- Witness for C9 at concrete tick times. -/
theorem progress_monotone_bounded_witness :
    progressAt 100 ≤ progressAt 200 ∧
    (0 ≤ progressAt 200 ∧ progressAt 200 ≤ 100) ∧
    progressAt 5000 = 100 :=
  ⟨progress_monotone_bounded.1 100 200 (by norm_num),
   progress_monotone_bounded.2.1 200,
   progress_monotone_bounded.2.2 5000 (by norm_num [RECORDING_DURATION_MS])⟩

/-! ## Claim theorems: profile synchronization -/

/-- Claim C3: a failing profile load retains the held profile and reports the
offline status when the error is `unavailable`; every other failure kind
(permission denied, invalid argument, unknown, and a missing document)
clears the held profile. -/
theorem profile_retain_or_clear :
    ∀ (uid : String) (online : Bool) (st : DashboardState) (code : FirestoreErrorCode),
      ((fetchUserData (some uid) online (.failure .unavailable) st).userData = st.userData ∧
       (fetchUserData (some uid) online (.failure .unavailable) st).isOffline = true ∧
       (fetchUserData (some uid) online (.failure .unavailable) st).fetchError =
         some .offlineMessage) ∧
      (code ≠ .unavailable →
        (fetchUserData (some uid) online (.failure code) st).userData = none) ∧
      (fetchUserData (some uid) online .notFound st).userData = none := by
  intro uid online st code
  refine ⟨⟨?_, ?_, ?_⟩, ?_, ?_⟩
  · cases online <;> simp [fetchUserData]
  · cases online <;> simp [fetchUserData]
  · cases online <;> simp [fetchUserData]
  · intro h
    cases online <;> cases code <;> simp_all [fetchUserData]
  · cases online <;> simp [fetchUserData]

/-- Witness for C3: a permission-denied failure clears an existing profile. -/
theorem profile_retain_or_clear_witness :
    (fetchUserData (some "u1") true (.failure .permissionDenied)
        { userData := some sampleProfile, loading := false, showWebcam := false,
          capturedImage := none, processing := false, livenessCheckRequired := false,
          isOffline := false, fetchError := none }).userData = none :=
  (profile_retain_or_clear "u1" true
      { userData := some sampleProfile, loading := false, showWebcam := false,
        capturedImage := none, processing := false, livenessCheckRequired := false,
        isOffline := false, fetchError := none }
      .permissionDenied).2.1 (by simp)

/-- Claim C5: the online transition triggers exactly one load when the held
profile is missing or the last outcome was an error, and zero loads when
profile data is present and error-free. -/
theorem online_refetch_policy :
    ∀ st : DashboardState,
      ((st.userData = none ∨ st.fetchError ≠ none) → (handleOnline st).2 = 1) ∧
      (st.userData ≠ none ∧ st.fetchError = none → (handleOnline st).2 = 0) := by
  intro st
  cases hu : st.userData <;> cases he : st.fetchError <;>
    simp_all [handleOnline]

/-- Witness for C5: going online with an errored profile triggers one load;
with a healthy cached profile it triggers none. -/
theorem online_refetch_policy_witness :
    (handleOnline
        { userData := none, loading := false, showWebcam := false,
          capturedImage := none, processing := false, livenessCheckRequired := false,
          isOffline := true, fetchError := some .offlineMessage }).2 = 1 ∧
    (handleOnline
        { userData := some sampleProfile, loading := false, showWebcam := false,
          capturedImage := none, processing := false, livenessCheckRequired := false,
          isOffline := true, fetchError := none }).2 = 0 :=
  ⟨(online_refetch_policy _).1 (Or.inl rfl),
   (online_refetch_policy _).2 ⟨Option.some_ne_none _, rfl⟩⟩

/-- Claim C6 (refuting evaluation): neither the online handler nor the fetch
routine consults the `loading` flag, so a new load is triggered even while a
previous one is still in flight.  The first conjunct shows the trigger count
is independent of `loading`; the second exhibits the failing input: a state
with a load pending (`loading = true`) and no data, where the online handler
still starts one more load. -/
theorem fetch_not_deduplicated :
    (∀ (st : DashboardState) (b : Bool),
        (handleOnline { st with loading := b }).2 = (handleOnline st).2) ∧
    (handleOnline
        { userData := none, loading := true, showWebcam := false,
          capturedImage := none, processing := false, livenessCheckRequired := false,
          isOffline := true, fetchError := some .offlineMessage }).2 = 1 := by
  constructor
  · intro st b
    simp only [handleOnline]
    split <;> rfl
  · rfl

/-! ## Claim theorems: enrollment pipeline -/

/-- Claim C2: after a fully successful enrollment run the held user profile
has `faceRegistered = true` and both `faceImageUrl` and `facialFeatures`
present, never only one of the two. -/
theorem enrollment_success_profile (uid url : String) (ud : UserData)
    (fv : List ℚ) (env : EnrollmentEnv) (st : DashboardState)
    (himg : st.capturedImage.isSome) (hud : st.userData = some ud)
    (hex : env.extractResult = .ok (some fv)) (hfv : fv ≠ [])
    (hupload : env.uploadResult = .ok ())
    (hurl : env.downloadUrlResult = .ok url)
    (hupdate : env.updateDocResult = .ok ()) :
    (handleLivenessSuccess (some uid) env st).outcome = .enrolled ∧
    ∃ ud', (handleLivenessSuccess (some uid) env st).state.userData = some ud' ∧
      ud'.faceRegistered = true ∧ ud'.faceImageUrl = some url ∧
      ud'.facialFeatures = some fv := by
  obtain ⟨img, himg⟩ := Option.isSome_iff_exists.mp himg
  have hne : fv.isEmpty = false := by
    cases fv with
    | nil => exact absurd rfl hfv
    | cons a l => rfl
  constructor
  · simp [handleLivenessSuccess, himg, hud, hex, hne, hupload, hurl, hupdate]
  · refine ⟨{ ud with faceRegistered := true, faceImageUrl := some url, facialFeatures := some fv }, ?_, rfl, rfl, rfl⟩
    simp [handleLivenessSuccess, himg, hud, hex, hne, hupload, hurl, hupdate]

/-- Witness for C2 on the sample profile with every external call succeeding. -/
theorem enrollment_success_profile_witness :
    (handleLivenessSuccess (some "u1") sampleEnv sampleState).outcome = .enrolled ∧
    ∃ ud', (handleLivenessSuccess (some "u1") sampleEnv sampleState).state.userData = some ud' ∧
      ud'.faceRegistered = true ∧ ud'.faceImageUrl = some "https://blob.example/u1.jpg" ∧
      ud'.facialFeatures = some [1, 2] :=
  enrollment_success_profile "u1" "https://blob.example/u1.jpg" sampleProfile
    [1, 2] sampleEnv sampleState rfl rfl rfl (List.cons_ne_nil 1 [2]) rfl rfl rfl

/-- Claim C7: an empty or absent feature vector terminates the attempt as a
no-face-detected failure before any upload or profile write; the captured
image is discarded and the held profile is unchanged. -/
theorem no_face_detected_terminal (uid : String) (env : EnrollmentEnv)
    (st : DashboardState) (featuresOpt : Option (List ℚ))
    (himg : st.capturedImage.isSome) (hud : st.userData.isSome)
    (hex : env.extractResult = .ok featuresOpt)
    (hempty : featuresOpt.getD [] = []) :
    (handleLivenessSuccess (some uid) env st).outcome = .failed .couldNotDetectFace ∧
    (handleLivenessSuccess (some uid) env st).uploadCalled = false ∧
    (handleLivenessSuccess (some uid) env st).updateDocCalled = false ∧
    (handleLivenessSuccess (some uid) env st).state.userData = st.userData ∧
    (handleLivenessSuccess (some uid) env st).state.capturedImage = none := by
  obtain ⟨img, himg⟩ := Option.isSome_iff_exists.mp himg
  obtain ⟨ud, hud⟩ := Option.isSome_iff_exists.mp hud
  cases featuresOpt with
  | none =>
      refine ⟨?_, ?_, ?_, ?_, ?_⟩ <;>
        simp [handleLivenessSuccess, himg, hud, hex, registrationErrorMessage]
  | some l =>
      have hl : l = [] := by simpa using hempty
      subst hl
      refine ⟨?_, ?_, ?_, ?_, ?_⟩ <;>
        simp [handleLivenessSuccess, himg, hud, hex, registrationErrorMessage]

/-- Witness for C7: an absent feature vector on the sample state. -/
theorem no_face_detected_terminal_witness :
    (handleLivenessSuccess (some "u1")
        { sampleEnv with extractResult := .ok none } sampleState).outcome =
      .failed .couldNotDetectFace ∧
    (handleLivenessSuccess (some "u1")
        { sampleEnv with extractResult := .ok none } sampleState).uploadCalled = false ∧
    (handleLivenessSuccess (some "u1")
        { sampleEnv with extractResult := .ok none } sampleState).updateDocCalled = false ∧
    (handleLivenessSuccess (some "u1")
        { sampleEnv with extractResult := .ok none } sampleState).state.userData =
      sampleState.userData ∧
    (handleLivenessSuccess (some "u1")
        { sampleEnv with extractResult := .ok none } sampleState).state.capturedImage =
      none :=
  no_face_detected_terminal "u1" { sampleEnv with extractResult := .ok none }
    sampleState none rfl rfl rfl rfl

/-- Claim C10: when the captured image, the authenticated user, or the held
profile is absent, the liveness-success continuation is a no-op: no external
call is made and the state is unchanged. -/
theorem liveness_success_noop (user : Option String) (env : EnrollmentEnv)
    (st : DashboardState)
    (h : st.capturedImage = none ∨ user = none ∨ st.userData = none) :
    handleLivenessSuccess user env st =
      { state := st, extractCalled := false, uploadCalled := false,
        updateDocCalled := false, outcome := .notStarted } := by
  cases hc : st.capturedImage <;> cases user <;> cases hd : st.userData <;>
    simp_all [handleLivenessSuccess]

/-- Witness for C10: liveness success with no captured image leaves the
state untouched. -/
theorem liveness_success_noop_witness :
    handleLivenessSuccess (some "u1") sampleEnv
        { sampleState with capturedImage := none } =
      { state := { sampleState with capturedImage := none },
        extractCalled := false, uploadCalled := false,
        updateDocCalled := false, outcome := .notStarted } :=
  liveness_success_noop (some "u1") sampleEnv
    { sampleState with capturedImage := none } (Or.inl rfl)

end FaceRegistry
